import Mathlib

/-!
Shallow embedding of `src/tero-server/src/tero.rs` (the `Tero` server
supervisor of the Unroll repository) and proofs about it.

Modelling conventions:
* Stored values (`Box<dyn Synchronizable>`) are modelled as `Val := Nat`;
  `clone_synchronizable` is the identity duplicate.
* Callbacks (`Box<dyn Fn() + Send + Sync>`) are opaque identifiers `Cb := Nat`.
* Each `Arc::new(RwLock::new(Vec::new()))` allocates a fresh cell in an
  explicit `Heap`, so that distinct registries created by distinct
  `Arc::new` calls are distinguishable (they have distinct references).
* `HashMap<String, DataElement>` is an association list with `List.lookup`.
* Panics (`panic!`, `.expect`, `.unwrap`) are the `Outcome.panicked`
  constructor; ordinary returns are `Outcome.ok`.
* Tokio tasks are identifiers recorded in a `World` holding the supervisor,
  the set of alive task ids and an id supply.  Spawning adds a fresh alive
  id; `JoinHandle::abort` removes the id from the alive set; dropping a
  `JoinHandle` without aborting detaches the task (the id stays alive).
* The broadcast channel keeps its full publish log; a receiver obtained by
  `subscribe()` is recorded with the log length at subscription time, and
  can only ever observe entries at positions at or after that point.
* Asynchronous interleaving is modelled as a discrete event system
  (`Reachable`): one event is one atomic supervisor operation or one
  iteration of the spawned accept loop.
-/

namespace Unroll

/-- `CHANNEL_SIZE` from tero.rs line 16. -/
def CHANNEL_SIZE : Nat := 32

/-- Stored values; the concrete payload type is irrelevant to the claims. -/
abbrev Val := Nat

/-- Opaque callback identifiers. -/
abbrev Cb := Nat

/-- `clone_synchronizable` duplicates the value (tero.rs line 49). -/
def Val.clone_synchronizable (v : Val) : Val := v

/-- A broadcast `Message` ({key, new value}). -/
structure Message where
  key : String
  value : Val
deriving DecidableEq, Repr

/-- Heap of callback registries: each `Arc::new(RwLock::new(Vec::new()))`
allocates a fresh cell holding a callback list. -/
structure Heap where
  next : Nat
  cells : List (Nat × List Cb)
deriving DecidableEq, Repr

/-- Allocate a fresh registry cell with contents `l`. -/
def Heap.alloc (h : Heap) (l : List Cb) : Nat × Heap :=
  (h.next, ⟨h.next + 1, h.cells ++ [(h.next, l)]⟩)

/-- The empty heap. -/
def Heap.empty : Heap := ⟨0, []⟩

/-- `DataElement` (tero.rs lines 18-21): the type-erased value plus a
reference to its own `Arc`'d callback registry. -/
structure DataElement where
  data : Val
  on_change_ref : Nat
deriving DecidableEq, Repr

/-- The broadcast channel created by `broadcast::channel(CHANNEL_SIZE)`:
an identity (so that clones of the sender can be recognised as handles on
the same channel), the fixed capacity, and the log of published messages. -/
structure BroadcastChannel where
  chanId : Nat
  capacity : Nat
  log : List Message
deriving DecidableEq, Repr

/-- `ServerState` (tero.rs lines 36-40). -/
inductive ServerState where
  | Up
  | Down
deriving DecidableEq, Repr

/-- The `Tero` supervisor struct (tero.rs lines 27-34).  Task join handles
are task identifiers. -/
structure Tero where
  state : ServerState
  addr : String
  server_handle : Option Nat
  handler_handles : List Nat
  store : List (String × DataElement)
  broadcast : BroadcastChannel
deriving DecidableEq, Repr

/-- `DataHandle` as constructed by `Tero::data` (tero.rs lines 53-59):
the key, the cloned broadcast sender (identified by its channel id), the
backing `DataElement`, and the handle's own callback registry allocated by
the second `Arc::new(RwLock::new(Vec::new()))` at line 58. -/
structure DataHandle where
  key : String
  sender : Nat
  data_element : DataElement
  on_change_ref : Nat
deriving DecidableEq, Repr

/-- Result of a Rust call: a normal return or a panic with its message. -/
inductive Outcome (α : Type) where
  | ok (a : α)
  | panicked (msg : String)
deriving DecidableEq, Repr

/-- Whether a call returned normally. -/
def Outcome.isOk {α : Type} : Outcome α → Bool
  | .ok _ => true
  | .panicked _ => false

/-- `Tero::new` (tero.rs lines 62-72): Down, no server handle, no handlers,
empty store, one fresh broadcast channel of capacity `CHANNEL_SIZE`. -/
def Tero.new (addr : String) : Tero :=
  { state := ServerState.Down
    addr := addr
    server_handle := none
    handler_handles := []
    store := []
    broadcast := { chanId := 0, capacity := CHANNEL_SIZE, log := [] } }

/-- `Tero::get_state` (tero.rs lines 74-76). -/
def Tero.get_state (t : Tero) : ServerState := t.state

/-- `guard.contains_key(key)` on the locked store (tero.rs line 45). -/
def Tero.contains_key (t : Tero) (key : String) : Bool :=
  (t.store.lookup key).isSome

/-- `Tero::data` (tero.rs lines 43-60).  Under the store lock: if the key
is present, `panic!("Key {} already exists", key)`; otherwise build a
`DataElement` holding a duplicate of the value and a freshly allocated
empty registry (line 50), clone the broadcast sender, and return a
`DataHandle` that owns the element and a second freshly allocated empty
registry of its own (line 58).  The store itself is only read, never
written: the function returns no modified `Tero`. -/
def Tero.data (t : Tero) (h : Heap) (key : String) (v : Val) :
    Outcome (DataHandle × Heap) :=
  if t.contains_key key then
    .panicked ("Key " ++ key ++ " already exists")
  else
    let a1 := h.alloc []
    let elem : DataElement :=
      { data := v.clone_synchronizable, on_change_ref := a1.1 }
    let a2 := a1.2.alloc []
    .ok ({ key := key
           sender := t.broadcast.chanId
           data_element := elem
           on_change_ref := a2.1 }, a2.2)

/-- Extract the handle of a successful `Tero::data` call. -/
def dataHandleOf (o : Outcome (DataHandle × Heap)) : DataHandle :=
  match o with
  | .ok (hd, _) => hd
  | .panicked _ =>
      { key := ""
        sender := 0
        data_element := { data := 0, on_change_ref := 0 }
        on_change_ref := 0 }

/-- Extract the heap of a successful `Tero::data` call. -/
def dataHeapOf (o : Outcome (DataHandle × Heap)) : Heap :=
  match o with
  | .ok (_, h) => h
  | .panicked _ => Heap.empty

/-- A running system: the supervisor, the alive task ids, the task id
supply, the registry heap, and the recorded broadcast receivers, each as
(session task id, broadcast log length at its `subscribe()` call). -/
structure World where
  tero : Tero
  alive : List Nat
  nextTask : Nat
  heap : Heap
  receivers : List (Nat × Nat)
deriving DecidableEq, Repr

/-- A freshly constructed system around `Tero::new`. -/
def World.init (addr : String) : World :=
  { tero := Tero.new addr
    alive := []
    nextTask := 0
    heap := Heap.empty
    receivers := [] }

/-- The successful-bind path of `Tero::start` (tero.rs lines 78-99):
spawn the accept-loop task, store the new handle in `server_handle`, set
the state to Up.  A previously stored handle is overwritten; dropping a
`JoinHandle` detaches its task without aborting it, so the overwritten
task id stays alive. -/
def World.startOk (w : World) : World :=
  { w with
    tero := { w.tero with
              server_handle := some w.nextTask
              state := ServerState.Up }
    alive := w.nextTask :: w.alive
    nextTask := w.nextTask + 1 }

/-- `Tero::start` with the outcome of the `TcpListener::bind` given by
`bindOk`: on failure, `socket.expect("Failed to bind addr.")` panics
before any field of `self` is touched. -/
def World.start (w : World) (bindOk : Bool) : Outcome World :=
  if bindOk then .ok w.startOk else .panicked "Failed to bind addr."

/-- The alive tasks surviving the aborts performed by `stop`: every handle
recorded in `handler_handles` is aborted, then the taken `server_handle`
is aborted. -/
def World.abortTracked (w : World) : List Nat :=
  (w.alive.filter
      (fun id => decide (id ∉ w.tero.handler_handles))).filter
    (fun id => decide (w.tero.server_handle ≠ some id))

/-- `Tero::stop` (tero.rs lines 101-110).  If the state is Up: abort every
handle in `handler_handles`, replace the registry by a fresh empty one,
`self.server_handle.take().unwrap().abort()` (a panic when the handle is
`None`), and set the state to Down.  Otherwise do nothing. -/
def World.stop (w : World) : Outcome World :=
  match w.tero.state with
  | ServerState.Down => .ok w
  | ServerState.Up =>
    match w.tero.server_handle with
    | none => .panicked "called Option.unwrap on a None value"
    | some _ =>
      .ok { w with
            tero := { w.tero with
                      handler_handles := []
                      server_handle := none
                      state := ServerState.Down }
            alive := w.abortTracked }

/-- The world after a non-panicking `stop` (identity on a panic). -/
def World.stopOk (w : World) : World :=
  match w.stop with
  | .ok w2 => w2
  | .panicked _ => w

/-- `Drop for Tero` (tero.rs lines 113-117) runs `self.stop()`. -/
def World.drop (w : World) : Outcome World := w.stop

/-- One iteration of the spawned accept loop (tero.rs lines 85-95): accept
a connection, subscribe a fresh broadcast receiver at the current log
position, spawn the session task, push its handle into the shared
`handler_handles` registry. -/
def World.acceptStep (w : World) : World :=
  { w with
    tero := { w.tero with
              handler_handles := w.tero.handler_handles ++ [w.nextTask] }
    alive := w.nextTask :: w.alive
    nextTask := w.nextTask + 1
    receivers := w.receivers ++ [(w.nextTask, w.tero.broadcast.log.length)] }

/-- Publishing one `Message` through (any clone of) the broadcast sender
appends it to the channel log. -/
def World.publish (w : World) (m : Message) : World :=
  { w with
    tero := { w.tero with
              broadcast := { w.tero.broadcast with
                             log := w.tero.broadcast.log ++ [m] } } }

/-- `Tero::data` as a system event: the handle is handed to the caller and
the two `Arc::new` allocations advance the heap; the supervisor itself is
unchanged (its store is only read). -/
def World.dataStep (w : World) (key : String) (v : Val) : World :=
  { w with
    heap := match w.tero.data w.heap key v with
            | .ok (_, h2) => h2
            | .panicked _ => w.heap }

/-- Worlds reachable from construction by the supervisor operations and by
iterations of the running accept loop.  An `acceptStep` requires the
accept-loop task to be alive; a `stop` or `data` event requires the call
to return (a panicking call ends the trace). -/
inductive Reachable : World → Prop where
  | init (addr : String) : Reachable (World.init addr)
  | start (w : World) : Reachable w → Reachable w.startOk
  | stop (w w2 : World) : Reachable w → w.stop = .ok w2 → Reachable w2
  | accept (w : World) (h : Nat) : Reachable w →
      w.tero.server_handle = some h → h ∈ w.alive → Reachable w.acceptStep
  | publish (w : World) (m : Message) : Reachable w → Reachable (w.publish m)
  | data (w : World) (key : String) (v : Val) : Reachable w →
      (w.tero.data w.heap key v).isOk = true → Reachable (w.dataStep key v)

/-- Reachability along well-formed traces: exactly `Reachable`, except
that `start` is only invoked while the supervisor is Down (the lifecycle
the specification's state diagram prescribes). -/
inductive WFReachable : World → Prop where
  | init (addr : String) : WFReachable (World.init addr)
  | start (w : World) : WFReachable w → w.tero.state = ServerState.Down →
      WFReachable w.startOk
  | stop (w w2 : World) : WFReachable w → w.stop = .ok w2 → WFReachable w2
  | accept (w : World) (h : Nat) : WFReachable w →
      w.tero.server_handle = some h → h ∈ w.alive → WFReachable w.acceptStep
  | publish (w : World) (m : Message) : WFReachable w → WFReachable (w.publish m)
  | data (w : World) (key : String) (v : Val) : WFReachable w →
      (w.tero.data w.heap key v).isOk = true → WFReachable (w.dataStep key v)

/-- The supervisor-level invariant: the state is Up exactly when the
accept-loop handle is present. -/
def Tero.stateInv (t : Tero) : Prop :=
  t.state = ServerState.Up ↔ t.server_handle.isSome = true

/-- Invariant of well-formed traces: the state/handle correspondence,
every alive task is tracked (it is the stored accept-loop handle or a
recorded session handle), and when Down nothing is tracked or alive. -/
def World.wfInv (w : World) : Prop :=
  w.tero.stateInv
  ∧ (∀ id ∈ w.alive,
      w.tero.server_handle = some id ∨ id ∈ w.tero.handler_handles)
  ∧ (w.tero.state = ServerState.Down →
      w.tero.handler_handles = [] ∧ w.alive = [])

/-- Claim C1 (code_bug evidence).  `Tero::data("k", 5)` on a fresh
supervisor succeeds and returns a handle bound to a newly created element
whose callback registry (cell 0) is empty — but the function never inserts
the key into the store: its type returns no updated `Tero` (the source
only reads the locked store), and the supervisor's store still lacks the
key after the call, so the claimed check-and-insert critical section has
no insert at all. -/
theorem data_never_inserts_into_store :
    (Tero.new "addr").data Heap.empty "k" 5 =
      .ok ({ key := "k"
             sender := 0
             data_element := { data := 5, on_change_ref := 0 }
             on_change_ref := 1 },
           { next := 2, cells := [(0, []), (1, [])] })
    ∧ (Tero.new "addr").contains_key "k" = false
    ∧ (Tero.new "addr").store.lookup "k" = none := by
  refine ⟨rfl, rfl, rfl⟩

/-- Claim C2 (code_bug evidence).  The handle returned by `Tero::data`
owns a callback registry of its own (allocated by the second `Arc::new`
at tero.rs line 58) that is a different registry from the one owned by its
backing `DataElement` (allocated at line 50): the references differ, and
the heap holds two separate (both empty) cells.  The claimed single
element-owned registry with no handle-private list does not match the
source. -/
theorem data_allocates_handle_private_registry :
    (dataHandleOf ((Tero.new "addr").data Heap.empty "k" 5)).on_change_ref ≠
      (dataHandleOf
        ((Tero.new "addr").data Heap.empty "k" 5)).data_element.on_change_ref
    ∧ (dataHeapOf ((Tero.new "addr").data Heap.empty "k" 5)).cells.lookup
        (dataHandleOf
          ((Tero.new "addr").data Heap.empty "k" 5)).data_element.on_change_ref
        = some []
    ∧ (dataHeapOf ((Tero.new "addr").data Heap.empty "k" 5)).cells.lookup
        (dataHandleOf ((Tero.new "addr").data Heap.empty "k" 5)).on_change_ref
        = some [] := by
  refine ⟨by decide, rfl, rfl⟩

/-- Claim C3 (code_bug evidence).  Registering the same key twice on the
same supervisor succeeds both times: the first registration never inserts
the key, so the duplicate check at tero.rs line 45 can never fire for
keys registered through `data`.  Moreover, on a supervisor whose store
does already hold the key, `data` panics with "Key k already exists"
instead of returning a recoverable error. -/
theorem duplicate_registration_both_succeed :
    ((Tero.new "addr").data Heap.empty "k" 1).isOk = true
    ∧ ((Tero.new "addr").data
        (dataHeapOf ((Tero.new "addr").data Heap.empty "k" 1)) "k" 2).isOk
        = true
    ∧ (Tero.data
        { state := ServerState.Down
          addr := "addr"
          server_handle := none
          handler_handles := []
          store := [("k", { data := 7, on_change_ref := 0 })]
          broadcast := { chanId := 0, capacity := 32, log := [] } }
        Heap.empty "k" 1)
        = .panicked "Key k already exists" := by
  refine ⟨rfl, rfl, rfl⟩

/-- Claim C4 (code_bug evidence).  When the listener cannot be bound,
`Tero::start` does not surface a recoverable `BindError` to the caller:
it panics through `socket.expect("Failed to bind addr.")` (before any
field of the supervisor is written, so no transition to Up happens). -/
theorem start_panics_on_bind_failure (w : World) :
    w.start false = .panicked "Failed to bind addr." := rfl

/-- Every reachable world satisfies the state/handle correspondence: the
supervisor is Up exactly when an accept-loop handle is stored. -/
theorem reachable_stateInv (w : World) (h : Reachable w) : w.tero.stateInv := by
  induction h with
  | init addr => simp [World.init, Tero.new, Tero.stateInv]
  | start w hw ih => simp [World.startOk, Tero.stateInv]
  | stop w w2 hw hstop ih =>
    cases hst : w.tero.state with
    | Down =>
      simp [World.stop, hst] at hstop
      subst hstop
      exact ih
    | Up =>
      cases hsh : w.tero.server_handle with
      | none => simp [World.stop, hst, hsh] at hstop
      | some hdl =>
        simp [World.stop, hst, hsh] at hstop
        subst hstop
        simp [Tero.stateInv]
  | accept w hdl hw hsh hmem ih => exact ih
  | publish w m hw ih => exact ih
  | data w key v hw hok ih => exact ih

/-- Claim C5.  The server state lifecycle: a fresh supervisor is Down,
`get_state` reports the stored state, the `data`, accept and publish
events leave the state untouched (only `start`/`stop` write it), and a
`start` call that returns did bind successfully and left the supervisor
Up — a failed bind panics instead, so Up is reached only after a
successful bind. -/
theorem server_state_lifecycle (a k : String) (v : Val) (m : Message)
    (w w2 : World) (b : Bool) (hs : w.start b = .ok w2) :
    (Tero.new a).state = ServerState.Down
    ∧ (World.init a).tero.get_state = ServerState.Down
    ∧ w.tero.get_state = w.tero.state
    ∧ (w.dataStep k v).tero.state = w.tero.state
    ∧ (w.acceptStep).tero.state = w.tero.state
    ∧ (w.publish m).tero.state = w.tero.state
    ∧ b = true
    ∧ w2 = w.startOk
    ∧ w2.tero.state = ServerState.Up
    ∧ w.start false = .panicked "Failed to bind addr." := by
  cases b with
  | false => simp [World.start] at hs
  | true =>
    simp [World.start] at hs
    subst hs
    exact ⟨rfl, rfl, rfl, rfl, rfl, rfl, rfl, rfl, rfl, rfl⟩

/-- Concrete instantiation of `server_state_lifecycle`. -/
theorem server_state_lifecycle_witness :
    (Tero.new "a").state = ServerState.Down
    ∧ (World.init "a").tero.get_state = ServerState.Down
    ∧ (World.init "b").tero.get_state = (World.init "b").tero.state
    ∧ ((World.init "b").dataStep "k" 0).tero.state = (World.init "b").tero.state
    ∧ ((World.init "b").acceptStep).tero.state = (World.init "b").tero.state
    ∧ ((World.init "b").publish { key := "k", value := 1 }).tero.state
        = (World.init "b").tero.state
    ∧ true = true
    ∧ (World.init "b").startOk = (World.init "b").startOk
    ∧ ((World.init "b").startOk).tero.state = ServerState.Up
    ∧ (World.init "b").start false = .panicked "Failed to bind addr." :=
  server_state_lifecycle "a" "k" 0 { key := "k", value := 1 }
    (World.init "b") ((World.init "b").startOk) true rfl

/-- Claim C6.  `stop` is idempotent: when the supervisor is Down it is a
complete no-op (the returned world is the input world, every field
unchanged), and after any `stop` that returns, a second `stop` returns
its input unchanged. -/
theorem stop_idempotent (w w2 : World) (h : w.stop = .ok w2) :
    w2.stop = .ok w2 ∧ (w.tero.state = ServerState.Down → w2 = w) := by
  cases hst : w.tero.state with
  | Down =>
    simp [World.stop, hst] at h
    subst h
    exact ⟨by simp [World.stop, hst], fun _ => rfl⟩
  | Up =>
    cases hsh : w.tero.server_handle with
    | none => simp [World.stop, hst, hsh] at h
    | some hdl =>
      simp [World.stop, hst, hsh] at h
      subst h
      refine ⟨by simp [World.stop], fun hd => ?_⟩
      simp at hd

/-- Concrete instantiation of `stop_idempotent` on a Down supervisor. -/
theorem stop_idempotent_witness :
    (World.init "a").stop = .ok (World.init "a")
    ∧ ((World.init "a").tero.state = ServerState.Down →
        World.init "a" = World.init "a") :=
  ⟨(stop_idempotent (World.init "a") (World.init "a") rfl).1,
   (stop_idempotent (World.init "a") (World.init "a") rfl).2⟩

/-- Claim C10.  Every supervisor operation preserves the invariant that
the state is Up exactly when the accept-loop handle is present
(`new`/`init` establishes it; `start`, `stop`, `data`, accept and publish
events preserve it; `get_state` reads no mutable field), and under the
invariant an Up supervisor's `stop` returns normally: the unconditional
`self.server_handle.take().unwrap()` in `stop` cannot panic. -/
theorem state_iff_server_handle_invariant (a k : String) (v : Val)
    (m : Message) (w : World) (hinv : w.tero.stateInv) :
    (World.init a).tero.stateInv
    ∧ (w.startOk).tero.stateInv
    ∧ (w.stopOk).tero.stateInv
    ∧ (w.dataStep k v).tero.stateInv
    ∧ (w.acceptStep).tero.stateInv
    ∧ (w.publish m).tero.stateInv
    ∧ (w.tero.state = ServerState.Up → (w.stop).isOk = true) := by
  refine ⟨by simp [World.init, Tero.new, Tero.stateInv], ?_, ?_, hinv, hinv,
    hinv, ?_⟩
  · simp [World.startOk, Tero.stateInv]
  · cases hst : w.tero.state with
    | Down => simpa [World.stopOk, World.stop, hst] using hinv
    | Up =>
      cases hsh : w.tero.server_handle with
      | none => simpa [World.stopOk, World.stop, hst, hsh] using hinv
      | some hdl => simp [World.stopOk, World.stop, hst, hsh, Tero.stateInv]
  · intro hup
    have hs : w.tero.server_handle.isSome = true := hinv.mp hup
    cases hsh : w.tero.server_handle with
    | none => rw [hsh] at hs; simp at hs
    | some hdl => simp [World.stop, hup, hsh, Outcome.isOk]

/-- Concrete instantiation of `state_iff_server_handle_invariant` on an
Up supervisor. -/
theorem state_iff_server_handle_invariant_witness :
    (World.init "a").tero.stateInv
    ∧ (((World.init "b").startOk).startOk).tero.stateInv
    ∧ (((World.init "b").startOk).stopOk).tero.stateInv
    ∧ (((World.init "b").startOk).dataStep "k" 0).tero.stateInv
    ∧ (((World.init "b").startOk).acceptStep).tero.stateInv
    ∧ (((World.init "b").startOk).publish { key := "k", value := 1 }).tero.stateInv
    ∧ (((World.init "b").startOk).tero.state = ServerState.Up →
        (((World.init "b").startOk).stop).isOk = true) :=
  state_iff_server_handle_invariant "a" "k" 0 { key := "k", value := 1 }
    ((World.init "b").startOk) (by simp [World.startOk, World.init, Tero.new, Tero.stateInv])

/-- Claim C7.  On a reachable Up supervisor, `stop` returns normally
(the handle unwrap cannot panic), transitions to Down, clears the task
registry and the stored accept-loop handle, and the surviving alive tasks
are exactly those not aborted: every recorded session handle and the
accept-loop handle are removed from the alive set. -/
theorem stop_cancels_and_clears (w : World) (hr : Reachable w)
    (hup : w.tero.state = ServerState.Up) :
    (w.stop).isOk = true
    ∧ (w.stopOk).tero.state = ServerState.Down
    ∧ (w.stopOk).tero.handler_handles = []
    ∧ (w.stopOk).tero.server_handle = none
    ∧ (w.stopOk).alive = (w.alive.filter
        (fun id => decide (id ∉ w.tero.handler_handles))).filter
        (fun id => decide (w.tero.server_handle ≠ some id)) := by
  have hinv := reachable_stateInv w hr
  have hs : w.tero.server_handle.isSome = true := hinv.mp hup
  cases hsh : w.tero.server_handle with
  | none => rw [hsh] at hs; simp at hs
  | some hdl =>
    refine ⟨?_, ?_, ?_, ?_, ?_⟩ <;>
      simp [World.stop, World.stopOk, World.abortTracked, hup, hsh,
        Outcome.isOk]

/-- Concrete instantiation of `stop_cancels_and_clears` on a started
supervisor. -/
theorem stop_cancels_and_clears_witness :
    ((((World.init "b").startOk)).stop).isOk = true
    ∧ ((((World.init "b").startOk)).stopOk).tero.state = ServerState.Down
    ∧ ((((World.init "b").startOk)).stopOk).tero.handler_handles = []
    ∧ ((((World.init "b").startOk)).stopOk).tero.server_handle = none
    ∧ ((((World.init "b").startOk)).stopOk).alive
        = ((((World.init "b").startOk)).alive.filter
            (fun id =>
              decide (id ∉ (((World.init "b").startOk)).tero.handler_handles))).filter
            (fun id =>
              decide ((((World.init "b").startOk)).tero.server_handle ≠ some id)) :=
  stop_cancels_and_clears ((World.init "b").startOk)
    (Reachable.start (World.init "b") (Reachable.init "b")) rfl

/-- Nothing survives `stop`'s aborts when every alive task is tracked. -/
theorem abortTracked_eq_nil (w : World)
    (htr : ∀ id ∈ w.alive,
      w.tero.server_handle = some id ∨ id ∈ w.tero.handler_handles) :
    w.abortTracked = [] := by
  apply List.eq_nil_iff_forall_not_mem.mpr
  intro id hid
  simp [World.abortTracked, List.mem_filter] at hid
  obtain ⟨h1, h2, h3⟩ := hid
  rcases htr id h1 with hc | hc
  · exact h2 hc
  · exact h3 hc

/-- Along well-formed traces the world invariant holds: state/handle
correspondence, every alive task is tracked, and a Down supervisor tracks
nothing and has no alive task. -/
theorem wfReachable_wfInv (w : World) (h : WFReachable w) : w.wfInv := by
  induction h with
  | init addr =>
    refine ⟨by simp [World.init, Tero.new, Tero.stateInv], ?_, ?_⟩
    · intro id hid
      simp [World.init] at hid
    · intro _
      exact ⟨rfl, rfl⟩
  | start w hw hdown ih =>
    obtain ⟨ih1, ih2, ih3⟩ := ih
    obtain ⟨hh, ha⟩ := ih3 hdown
    refine ⟨by simp [World.startOk, Tero.stateInv], ?_, ?_⟩
    · intro id hid
      simp [World.startOk, ha] at hid
      exact Or.inl (by simp [World.startOk, hid])
    · intro hd
      simp [World.startOk] at hd
  | stop w w2 hw hstop ih =>
    obtain ⟨ih1, ih2, ih3⟩ := ih
    cases hst : w.tero.state with
    | Down =>
      simp [World.stop, hst] at hstop
      subst hstop
      exact ⟨ih1, ih2, ih3⟩
    | Up =>
      cases hsh : w.tero.server_handle with
      | none => simp [World.stop, hst, hsh] at hstop
      | some hdl =>
        simp [World.stop, hst, hsh] at hstop
        subst hstop
        have hnil : w.abortTracked = [] := abortTracked_eq_nil w ih2
        refine ⟨by simp [Tero.stateInv], ?_, ?_⟩
        · intro id hid
          rw [hnil] at hid
          simp at hid
        · intro _
          exact ⟨rfl, hnil⟩
  | accept w hdl hw hsh hmem ih =>
    obtain ⟨ih1, ih2, ih3⟩ := ih
    have hup : w.tero.state = ServerState.Up := ih1.mpr (by rw [hsh]; rfl)
    refine ⟨?_, ?_, ?_⟩
    · simpa [World.acceptStep, Tero.stateInv] using ih1
    · intro id hid
      simp [World.acceptStep] at hid ⊢
      rcases hid with hid | hid
      · exact Or.inr (Or.inr hid)
      · rcases ih2 id hid with hc | hc
        · exact Or.inl hc
        · exact Or.inr (Or.inl hc)
    · intro hd
      simp [World.acceptStep, hup] at hd
  | publish w m hw ih =>
    obtain ⟨ih1, ih2, ih3⟩ := ih
    exact ⟨ih1, ih2, ih3⟩
  | data w key v hw hok ih =>
    obtain ⟨ih1, ih2, ih3⟩ := ih
    exact ⟨ih1, ih2, ih3⟩

/-- Claim C8 counterexample.  The trace new → start → start → drop leaks
the first accept-loop task: the first `start` records task 0 as the
accept-loop handle, the second `start` overwrites that handle without
aborting task 0 (dropping a `JoinHandle` detaches the task), and the
`stop` run by `Drop` then aborts only task 1 — after the supervisor is
discarded, listener task 0 is still alive, contradicting the claim for
this state of the supervisor. -/
theorem drop_after_double_start_leaks_listener :
    ((World.init "addr").startOk).tero.server_handle = some 0
    ∧ (((World.init "addr").startOk).startOk).stopOk.alive = [0]
    ∧ (((World.init "addr").startOk).startOk).stopOk.tero.state
        = ServerState.Down := by
  refine ⟨rfl, by decide, rfl⟩

/-- Claim C8 as amended.  Along any trace in which `start` is only called
while the supervisor is Down, discarding the supervisor performs `stop`
(which returns normally) and afterwards no listener or session task is
alive: the task registry, the accept-loop handle and the alive set are
all empty, regardless of whether the supervisor was Up or Down when
discarded. -/
theorem drop_stops_all_tasks_wf (w : World) (h : WFReachable w) :
    w.drop = .ok w.stopOk
    ∧ (w.stopOk).alive = []
    ∧ (w.stopOk).tero.state = ServerState.Down
    ∧ (w.stopOk).tero.server_handle = none
    ∧ (w.stopOk).tero.handler_handles = [] := by
  obtain ⟨h1, h2, h3⟩ := wfReachable_wfInv w h
  cases hst : w.tero.state with
  | Down =>
    obtain ⟨hh, ha⟩ := h3 hst
    have hnone : w.tero.server_handle = none := by
      cases hsh : w.tero.server_handle with
      | none => rfl
      | some hdl =>
        have hup : w.tero.state = ServerState.Up := h1.mpr (by rw [hsh]; rfl)
        rw [hst] at hup
        cases hup
    refine ⟨?_, ?_, ?_, ?_, ?_⟩ <;>
      simp [World.drop, World.stop, World.stopOk, hst, ha, hh, hnone]
  | Up =>
    have hs : w.tero.server_handle.isSome = true := h1.mp hst
    cases hsh : w.tero.server_handle with
    | none => rw [hsh] at hs; simp at hs
    | some hdl =>
      have hnil : w.abortTracked = [] := abortTracked_eq_nil w h2
      refine ⟨?_, ?_, ?_, ?_, ?_⟩ <;>
        simp [World.drop, World.stop, World.stopOk, hst, hsh, hnil]

/-- Concrete instantiation of `drop_stops_all_tasks_wf` on a started
supervisor. -/
theorem drop_stops_all_tasks_wf_witness :
    ((World.init "b").startOk).drop = .ok ((World.init "b").startOk).stopOk
    ∧ (((World.init "b").startOk).stopOk).alive = []
    ∧ (((World.init "b").startOk).stopOk).tero.state = ServerState.Down
    ∧ (((World.init "b").startOk).stopOk).tero.server_handle = none
    ∧ (((World.init "b").startOk).stopOk).tero.handler_handles = [] :=
  drop_stops_all_tasks_wf ((World.init "b").startOk)
    (WFReachable.start (World.init "b") (WFReachable.init "b") rfl)

/-- The broadcast channel of a reachable world is the one created at
construction: same identity, same fixed capacity. -/
theorem reachable_broadcast_const (w : World) (h : Reachable w) :
    w.tero.broadcast.capacity = CHANNEL_SIZE
    ∧ w.tero.broadcast.chanId = 0 := by
  induction h with
  | init addr => exact ⟨rfl, rfl⟩
  | start w hw ih => exact ih
  | stop w w2 hw hstop ih =>
    cases hst : w.tero.state with
    | Down =>
      simp [World.stop, hst] at hstop
      subst hstop
      exact ih
    | Up =>
      cases hsh : w.tero.server_handle with
      | none => simp [World.stop, hst, hsh] at hstop
      | some hdl =>
        simp [World.stop, hst, hsh] at hstop
        subst hstop
        exact ih
  | accept w hdl hw hsh hmem ih => exact ih
  | publish w m hw ih => exact ih
  | data w key v hw hok ih => exact ih

/-- Every receiver recorded in a reachable world was subscribed at a
position inside the published log: its start position never exceeds the
current log length. -/
theorem reachable_receiver_pos_le (w : World) (h : Reachable w) :
    ∀ q ∈ w.receivers, q.2 ≤ w.tero.broadcast.log.length := by
  induction h with
  | init addr =>
    intro q hq
    simp [World.init] at hq
  | start w hw ih => exact ih
  | stop w w2 hw hstop ih =>
    cases hst : w.tero.state with
    | Down =>
      simp [World.stop, hst] at hstop
      subst hstop
      exact ih
    | Up =>
      cases hsh : w.tero.server_handle with
      | none => simp [World.stop, hst, hsh] at hstop
      | some hdl =>
        simp [World.stop, hst, hsh] at hstop
        subst hstop
        exact ih
  | accept w hdl hw hsh hmem ih =>
    intro q hq
    simp [World.acceptStep] at hq ⊢
    rcases hq with hq | hq
    · exact ih q hq
    · subst hq
      exact le_rfl
  | publish w m hw ih =>
    intro q hq
    have := ih q hq
    simp [World.publish]
    omega
  | data w key v hw hok ih => exact ih

/-- Claim C9.  The broadcast bus: `CHANNEL_SIZE` is 32; construction
creates the single bounded channel (capacity `CHANNEL_SIZE`, empty log)
and every reachable world still carries that same channel with the same
fixed capacity; the handle returned by `data` publishes through a clone
of that one sender (same channel identity); each accepted connection
appends exactly one fresh receiver subscribed at the current log length;
publishing appends to the log without disturbing the prefix below any
subscribed position — so a receiver, which reads only from its subscribe
position onward, observes no message published before it subscribed. -/
theorem broadcast_single_channel_fresh_receivers
    (a k : String) (t : Tero) (hp hp2 : Heap) (v : Val)
    (hd : DataHandle) (w : World) (m : Message) (tid p : Nat)
    (hdata : t.data hp k v = .ok (hd, hp2))
    (hr : Reachable w) (hmem : (tid, p) ∈ w.receivers) :
    CHANNEL_SIZE = 32
    ∧ (Tero.new a).broadcast
        = { chanId := 0, capacity := CHANNEL_SIZE, log := [] }
    ∧ w.tero.broadcast.capacity = CHANNEL_SIZE
    ∧ w.tero.broadcast.chanId = (Tero.new a).broadcast.chanId
    ∧ hd.sender = t.broadcast.chanId
    ∧ (w.acceptStep).receivers
        = w.receivers ++ [(w.nextTask, w.tero.broadcast.log.length)]
    ∧ (w.acceptStep).tero.broadcast = w.tero.broadcast
    ∧ p ≤ w.tero.broadcast.log.length
    ∧ (w.publish m).tero.broadcast.log = w.tero.broadcast.log ++ [m]
    ∧ (w.publish m).tero.broadcast.log.take p
        = w.tero.broadcast.log.take p := by
  obtain ⟨hcap, hid⟩ := reachable_broadcast_const w hr
  have hple : p ≤ w.tero.broadcast.log.length :=
    reachable_receiver_pos_le w hr (tid, p) hmem
  have hsender : hd.sender = t.broadcast.chanId := by
    by_cases hc : t.contains_key k
    · simp [Tero.data, hc] at hdata
    · simp [Tero.data, hc] at hdata
      rw [← hdata.1]
  refine ⟨rfl, rfl, hcap, hid, hsender, rfl, rfl, hple, rfl, ?_⟩
  exact List.take_append_of_le_length hple

/-- Concrete instantiation of `broadcast_single_channel_fresh_receivers`:
a handle created on a fresh supervisor, and a session accepted on a
started supervisor. -/
theorem broadcast_single_channel_fresh_receivers_witness :
    CHANNEL_SIZE = 32
    ∧ (Tero.new "a").broadcast
        = { chanId := 0, capacity := CHANNEL_SIZE, log := [] }
    ∧ (((World.init "d").startOk).acceptStep).tero.broadcast.capacity
        = CHANNEL_SIZE
    ∧ (((World.init "d").startOk).acceptStep).tero.broadcast.chanId
        = (Tero.new "a").broadcast.chanId
    ∧ (dataHandleOf ((Tero.new "c").data Heap.empty "k" 0)).sender
        = (Tero.new "c").broadcast.chanId
    ∧ ((((World.init "d").startOk).acceptStep).acceptStep).receivers
        = (((World.init "d").startOk).acceptStep).receivers
          ++ [((((World.init "d").startOk).acceptStep).nextTask,
              (((World.init "d").startOk).acceptStep).tero.broadcast.log.length)]
    ∧ ((((World.init "d").startOk).acceptStep).acceptStep).tero.broadcast
        = (((World.init "d").startOk).acceptStep).tero.broadcast
    ∧ 0 ≤ (((World.init "d").startOk).acceptStep).tero.broadcast.log.length
    ∧ ((((World.init "d").startOk).acceptStep).publish
          { key := "k", value := 5 }).tero.broadcast.log
        = (((World.init "d").startOk).acceptStep).tero.broadcast.log
          ++ [{ key := "k", value := 5 }]
    ∧ ((((World.init "d").startOk).acceptStep).publish
          { key := "k", value := 5 }).tero.broadcast.log.take 0
        = (((World.init "d").startOk).acceptStep).tero.broadcast.log.take 0 :=
  broadcast_single_channel_fresh_receivers "a" "k" (Tero.new "c")
    Heap.empty { next := 2, cells := [(0, []), (1, [])] } 0
    (dataHandleOf ((Tero.new "c").data Heap.empty "k" 0))
    (((World.init "d").startOk).acceptStep) { key := "k", value := 5 } 1 0
    rfl
    (Reachable.accept ((World.init "d").startOk) 0
      (Reachable.start (World.init "d") (Reachable.init "d")) rfl
      (by decide))
    (by decide)

end Unroll
